import Mathlib

/-!
Shallow embedding of the Hubitat hub client
(`homeassistant/components/hubitat/`: `hubitat.py`, `device.py`,
`light.py`, `__init__.py`) together with theorems settling the spec
claims about it.

Conventions of the embedding:
* Decoded JSON values are the inductive `Json`; Python dictionaries are
  association lists in insertion order.
* Python exceptions become `Except` results; each exception class that
  matters to a claim has its own `HubErr` constructor (`AttributeError`
  for reading an attribute that was never assigned, `KeyError` for a
  missing dictionary key, `TypeError` for indexing a string with a
  string, the module's own `InvalidConfig` / `InvalidAttribute`,
  voluptuous validation failures, transport failures).
* HTTP I/O is an oracle `FetchEnv` supplying the decoded response of
  each endpoint; the hub-details HTML fetch plus BeautifulSoup parse is
  supplied already parsed, since parsing is external library code.
* Machine integers do not occur; the only arithmetic is small-range
  `Nat` arithmetic from the light module, where Python `int(a / b)` on
  the exact nonnegative fractions involved equals `Nat` floor division
  (the fractions have denominator 51 resp. 20, so the double rounding
  of float division can never cross an integer boundary).
-/

/-- Decoded JSON, as produced by `resp.json()`. Objects are association
lists in insertion order (Python dicts have unique keys). -/
inductive Json where
  | null
  | bool (b : Bool)
  | int (n : Int)
  | str (s : String)
  | arr (elems : List Json)
  | obj (fields : List (String × Json))

/-- A transport-level failure of an HTTP call (network error, bad
status, undecodable body). -/
inductive TransportErr where
  | err
  deriving DecidableEq

/-- A voluptuous validation failure (`vol.Invalid`) with its message. -/
inductive VolErr where
  | invalid (msg : String)
  deriving DecidableEq

/-- The Python exceptions the embedded operations can surface. -/
inductive HubErr where
  | invalidConfig (msg : String)
  | attributeError
  | keyError
  | typeError
  | invalidAttribute
  | schemaInvalid (e : VolErr)
  | transport (e : TransportErr)
  deriving DecidableEq

/-- A validated attribute record (`ATTRIBUTE_SCHEMA`): `name` and
`dataType` are required (`dataType` may be JSON null), `currentValue`
and `values` are optional and kept as raw JSON. -/
structure AttrRec where
  name : String
  dataType : Option String
  currentValue : Option Json
  values : Option Json

/-- A validated capability entry (`CAPABILITY_SCHEMA`): either a bare
string tag or a mapping whose single key is `attributes`. -/
inductive Capability where
  | tag (s : String)
  | obj (attributes : List AttrRec)

/-- A validated full device record (`DEVICE_INFO_SCHEMA`). -/
structure DeviceInfo where
  id : String
  name : String
  label : String
  attributes : List AttrRec
  capabilities : List Capability
  commands : List String

/-- A registered device listener, abstracted to an identity plus
whether invoking it raises. -/
structure CB where
  ident : Nat
  raises : Bool
  deriving DecidableEq

/-- Python dictionary read `m[k]` / `k in m`: first binding wins
(insertion-ordered association list with unique keys). -/
def assocLookup {α : Type} : List (String × α) → String → Option α
  | [], _ => none
  | (k, v) :: rest, key => if k = key then some v else assocLookup rest key

/-- Python dictionary write `m[k] = v`: replace the value at an existing
key in place, otherwise append the new binding. -/
def assocSet {α : Type} : List (String × α) → String → α → List (String × α)
  | [], key, v => [(key, v)]
  | (k, w) :: rest, key, v =>
    if k = key then (key, v) :: rest else (k, w) :: assocSet rest key v

/-- Append a callback to the listener list for a device id, creating the
entry on first registration. -/
def listenersAdd : List (String × List CB) → String → CB → List (String × List CB)
  | [], key, cb => [(key, [cb])]
  | (k, cbs) :: rest, key, cb =>
    if k = key then (k, cbs ++ [cb]) :: rest else (k, cbs) :: listenersAdd rest key cb

/-- Python `",".join(args)`. -/
def join_comma : List String → String
  | [] => ""
  | [a] => a
  | a :: b :: rest => a ++ "," ++ join_comma (b :: rest)

/-- One field of an attribute mapping is acceptable to
`ATTRIBUTE_SCHEMA`: known key with a value of the schema's type
(voluptuous rejects extra keys). -/
def attrFieldOk : String × Json → Bool
  | ("name", Json.str _) => true
  | ("dataType", Json.str _) => true
  | ("dataType", Json.null) => true
  | ("currentValue", Json.str _) => true
  | ("currentValue", Json.int _) => true
  | ("values", Json.arr xs) =>
    xs.all (fun x => match x with | Json.str _ => true | _ => false)
      || xs.all (fun x => match x with | Json.int _ => true | _ => false)
  | _ => false

/-- `ATTRIBUTE_SCHEMA` applied to a JSON value: a mapping whose fields
all pass `attrFieldOk` and which provides the required `name` and
`dataType` keys. -/
def validateAttr (j : Json) : Except VolErr AttrRec :=
  match j with
  | Json.obj fields =>
    if fields.all attrFieldOk then
      match assocLookup fields "name", assocLookup fields "dataType" with
      | some (Json.str n), some dt =>
        Except.ok
          { name := n
            dataType := match dt with | Json.str s => some s | _ => none
            currentValue := assocLookup fields "currentValue"
            values := assocLookup fields "values" }
      | _, _ => Except.error (VolErr.invalid "required key not provided")
    else Except.error (VolErr.invalid "extra keys not allowed")
  | _ => Except.error (VolErr.invalid "expected a dictionary")

/-- Validate each element of a JSON list with a given element
validator, failing on the first invalid element. -/
def validateEach {α : Type} (f : Json → Except VolErr α) : List Json → Except VolErr (List α)
  | [] => Except.ok []
  | j :: rest =>
    match f j with
    | Except.error e => Except.error e
    | Except.ok a =>
      match validateEach f rest with
      | Except.error e => Except.error e
      | Except.ok as => Except.ok (a :: as)

/-- `CAPABILITY_SCHEMA` applied to a JSON value: a bare string, or a
mapping with exactly the required key `attributes` holding a list of
attribute records. -/
def validateCapability (j : Json) : Except VolErr Capability :=
  match j with
  | Json.str s => Except.ok (Capability.tag s)
  | Json.obj fields =>
    if fields.all (fun f => f.1 = "attributes") then
      match assocLookup fields "attributes" with
      | some (Json.arr xs) =>
        match validateEach validateAttr xs with
        | Except.error e => Except.error e
        | Except.ok attrs => Except.ok (Capability.obj attrs)
      | _ => Except.error (VolErr.invalid "required key not provided")
    else Except.error (VolErr.invalid "extra keys not allowed")
  | _ => Except.error (VolErr.invalid "not a valid value")

/-- Extract a list of strings (`[str]` in a voluptuous schema). -/
def validateStrList : List Json → Except VolErr (List String)
  | [] => Except.ok []
  | Json.str s :: rest =>
    match validateStrList rest with
    | Except.error e => Except.error e
    | Except.ok ss => Except.ok (s :: ss)
  | _ :: _ => Except.error (VolErr.invalid "expected str")

/-- The allowed keys of `DEVICE_INFO_SCHEMA`. -/
def deviceInfoKeys : List String :=
  ["id", "name", "label", "attributes", "capabilities", "commands"]

/-- `DEVICE_INFO_SCHEMA` applied to a JSON value: a mapping with exactly
the six required keys, with `id`/`name`/`label` strings, `attributes` a
list of attribute records, `capabilities` a list of capability entries,
`commands` a list of strings. -/
def validateDeviceInfo (j : Json) : Except VolErr DeviceInfo :=
  match j with
  | Json.obj fields =>
    if fields.all (fun f => deviceInfoKeys.contains f.1) then
      match assocLookup fields "id", assocLookup fields "name",
            assocLookup fields "label" with
      | some (Json.str i), some (Json.str n), some (Json.str l) =>
        match assocLookup fields "attributes", assocLookup fields "capabilities",
              assocLookup fields "commands" with
        | some (Json.arr as), some (Json.arr cs), some (Json.arr ms) =>
          match validateEach validateAttr as with
          | Except.error e => Except.error e
          | Except.ok attrs =>
            match validateEach validateCapability cs with
            | Except.error e => Except.error e
            | Except.ok caps =>
              match validateStrList ms with
              | Except.error e => Except.error e
              | Except.ok cmds =>
                Except.ok
                  { id := i, name := n, label := l, attributes := attrs
                    capabilities := caps, commands := cmds }
        | _, _, _ => Except.error (VolErr.invalid "required key not provided")
      | _, _, _ => Except.error (VolErr.invalid "required key not provided")
    else Except.error (VolErr.invalid "extra keys not allowed")
  | _ => Except.error (VolErr.invalid "expected a dictionary")

/-- `DEVICE_SCHEMA = vol.Schema({"id": str, "name": str, "label": str},
required=True)`: a mapping schema. Applied to any non-mapping (in
particular to the device summary *list* the hub returns) it fails with
`expected a dictionary`. On success voluptuous returns the validated
value. -/
def device_schema (j : Json) : Except VolErr Json :=
  match j with
  | Json.obj fields =>
    if fields.all
        (fun f =>
          match f with
          | ("id", Json.str _) => true
          | ("name", Json.str _) => true
          | ("label", Json.str _) => true
          | _ => false) then
      match assocLookup fields "id", assocLookup fields "name",
            assocLookup fields "label" with
      | some _, some _, some _ => Except.ok (Json.obj fields)
      | _, _, _ => Except.error (VolErr.invalid "required key not provided")
    else Except.error (VolErr.invalid "extra keys not allowed")
  | _ => Except.error (VolErr.invalid "expected a dictionary")

/-- The state of a `HubitatHub` instance. `__init__` assigns `host`,
`app_id`, `token`, `api` and `listeners`; `self.devices` and
`self.info` carry bare type annotations only and are never assigned, so
they start *unset* — modelled as `none`; reading them then raises
`AttributeError`. -/
structure HubitatHub where
  host : String
  app_id : String
  token : String
  api : String
  devices : Option (List (String × DeviceInfo))
  info : Option (List (String × String))
  listeners : List (String × List CB)

/-- The decoded responses the hub supplies: the parsed hub-details
pairs from `GET /hub/edit` (HTML fetch + BeautifulSoup parse, modelled
as an oracle since both are external library code), the device summary
payload from `GET api/devices`, and the full-info payload of each
device from `GET api/devices/id`. -/
structure FetchEnv where
  hubDetails : Except TransportErr (List (String × String))
  deviceList : Except TransportErr Json
  deviceInfo : String → Except TransportErr Json

namespace HubitatHub

/-- `HubitatHub.__init__(host, app_id, access_token)`: rejects an empty
(falsy) value for any of the three parameters with `InvalidConfig`,
checking `host` first, then `app_id`, then `access_token`; otherwise
builds the instance with the derived API base URL. -/
def init (host app_id access_token : String) : Except HubErr HubitatHub :=
  if host = "" then Except.error (HubErr.invalidConfig "Missing host")
  else if app_id = "" then Except.error (HubErr.invalidConfig "Missing app_id")
  else if access_token = "" then Except.error (HubErr.invalidConfig "Missing access_token")
  else
    Except.ok
      { host := host
        app_id := app_id
        token := access_token
        api := "http://" ++ host ++ "/apps/api/" ++ app_id
        devices := none
        info := none
        listeners := [] }

/-- Scan an attribute list for the first record with the given name
(the `for attr in state["attributes"]` loop). -/
def findAttr : List AttrRec → String → Option AttrRec
  | [], _ => none
  | a :: rest, attr_name => if a.name = attr_name then some a else findAttr rest attr_name

/-- `HubitatHub.get_device_attribute(device_id, attr_name)`:
`self.devices[device_id]` raises `AttributeError` when `self.devices`
was never assigned and `KeyError` when the id is not a key; then the
linear scan returns the first attribute record with the requested name
or raises `InvalidAttribute`. -/
def get_device_attribute (h : HubitatHub) (device_id attr_name : String) :
    Except HubErr AttrRec :=
  match h.devices with
  | none => Except.error HubErr.attributeError
  | some devs =>
    match assocLookup devs device_id with
    | none => Except.error HubErr.keyError
    | some state =>
      match findAttr state.attributes attr_name with
      | some attr => Except.ok attr
      | none => Except.error HubErr.invalidAttribute

/-- `HubitatHub.update_state(event)`: the body is `pass` — every event
payload is ignored, no exception is raised, the state is untouched. -/
def update_state (h : HubitatHub) (_event : Json) : HubitatHub := h

/-- The optional argument of `send_command`, a Python
`Optional[Union[str, int]]` when present. -/
inductive Arg where
  | s (v : String)
  | i (v : Int)

/-- Python truthiness of a `send_command` argument: the empty string
and the integer `0` are falsy, every other value is truthy. -/
def Arg.truthy : Arg → Bool
  | Arg.s v => !(v = "")
  | Arg.i v => !(v = 0)

/-- Python `str(arg)` for a `send_command` argument. -/
def Arg.toStr : Arg → String
  | Arg.s v => v
  | Arg.i v => toString v

/-- The URL `send_command` builds: `url` is `http://` followed by
`self.api`, `/devices/`, the device id, `/` and the command, with a
final `/` plus the argument appended only when `arg` is truthy. Note
the source prepends `http://` to `self.api`, which already starts with
`http://`. -/
def send_command_url (h : HubitatHub) (device_id command : String) (arg : Option Arg) :
    String :=
  let url := "http://" ++ h.api ++ "/devices/" ++ device_id ++ "/" ++ command
  match arg with
  | some a => if a.truthy then url ++ "/" ++ a.toStr else url
  | none => url

/-- An HTTP request as issued through `aiohttp.request`: method, URL,
and the query parameters passed via `params=`. -/
structure HttpRequest where
  method : String
  url : String
  params : List (String × String)
  deriving DecidableEq

/-- The request `HubitatHub.send_command` issues: a GET on
`send_command_url` with *no* `params=` argument, hence no query
parameters (in particular no access token). -/
def send_command_request (h : HubitatHub) (device_id command : String)
    (arg : Option Arg) : HttpRequest :=
  { method := "GET", url := send_command_url h device_id command arg, params := [] }

/-- `HubitatHub._load_info`: fetch and parse the hub-details page, then
assign `self.info`; the trailing debug log formats `self.devices`,
which raises `AttributeError` when that attribute was never assigned.
(The embedding's error results drop the partial `info` assignment; no
claim reads `info` after a failure.) -/
def load_info (env : FetchEnv) (h : HubitatHub) : Except HubErr HubitatHub :=
  match env.hubDetails with
  | Except.error e => Except.error (HubErr.transport e)
  | Except.ok details =>
    match h.devices with
    | none => Except.error HubErr.attributeError
    | some _ => Except.ok { h with info := some details }

/-- The body of `HubitatHub._load_device` when it actually fetches:
GET the device's full info, validate it with `DEVICE_INFO_SCHEMA`, then
store it via `self.devices[device_id] = ...` (which raises
`AttributeError` when `self.devices` was never assigned) and return the
stored record. -/
def load_device_fetch (env : FetchEnv) (h : HubitatHub) (device_id : String) :
    Except HubErr (HubitatHub × DeviceInfo) :=
  match env.deviceInfo device_id with
  | Except.error e => Except.error (HubErr.transport e)
  | Except.ok j =>
    match validateDeviceInfo j with
    | Except.error e => Except.error (HubErr.schemaInvalid e)
    | Except.ok info =>
      match h.devices with
      | none => Except.error HubErr.attributeError
      | some devs =>
        Except.ok ({ h with devices := some (assocSet devs device_id info) }, info)

/-- `HubitatHub._load_device(device_id, force_refresh)`: fetch when
forced or when the id is not cached (`device_id not in self.devices`
raises `AttributeError` on an unset cache), else return the cached
record. -/
def load_device (env : FetchEnv) (h : HubitatHub) (device_id : String)
    (force_refresh : Bool) : Except HubErr (HubitatHub × DeviceInfo) :=
  if force_refresh then load_device_fetch env h device_id
  else
    match h.devices with
    | none => Except.error HubErr.attributeError
    | some devs =>
      match assocLookup devs device_id with
      | some info => Except.ok (h, info)
      | none => load_device_fetch env h device_id

/-- The `for dev in devices` loop of `_load_devices`. `devices` is the
value returned by `DEVICE_SCHEMA`, which can only be a mapping;
iterating a mapping yields its *keys* (strings), so the first iteration
evaluates `dev["id"]` on a string, which raises `TypeError`. -/
def load_devices_loop (h : HubitatHub) : List String → Except HubErr HubitatHub
  | [] => Except.ok h
  | _ :: _ => Except.error HubErr.typeError

/-- `HubitatHub._load_devices(force_refresh)`: when forced or when the
cache is empty (`len(self.devices)` raises `AttributeError` on an unset
cache), fetch the summary payload, validate it with `DEVICE_SCHEMA`
(a *mapping* schema), then iterate the validated value. -/
def load_devices (env : FetchEnv) (h : HubitatHub) (force_refresh : Bool) :
    Except HubErr HubitatHub :=
  let body : Except HubErr HubitatHub :=
    match env.deviceList with
    | Except.error e => Except.error (HubErr.transport e)
    | Except.ok payload =>
      match device_schema payload with
      | Except.error e => Except.error (HubErr.schemaInvalid e)
      | Except.ok validated =>
        match validated with
        | Json.obj fields => load_devices_loop h (fields.map (fun f => f.1))
        | _ => Except.error HubErr.typeError
  if force_refresh then body
  else
    match h.devices with
    | none => Except.error HubErr.attributeError
    | some devs => if devs.length = 0 then body else Except.ok h

/-- `HubitatHub.connect`: `gather` over `_load_info` and
`_load_devices` — both tasks run to completion or failure; the two
assign disjoint fields (`info` resp. `devices`), so success combines
them, and a failure of either fails the call. -/
def connect (env : FetchEnv) (h : HubitatHub) : Except HubErr HubitatHub :=
  match load_info env h, load_devices env h false with
  | Except.ok h1, Except.ok h2 => Except.ok { h with info := h1.info, devices := h2.devices }
  | Except.error e, _ => Except.error e
  | _, Except.error e => Except.error e

end HubitatHub

/-- `handle_event(hass, webhook_id, request)` from the package module:
an undecodable body (`ValueError`) is logged and dropped (nothing
fired); a mapping gets `webhook_id` added and is fired on the bus; any
other decoded value is fired unchanged. The device cache is never
touched. -/
def handle_event (webhook_id : String) (body : Except Unit Json) : Option Json :=
  match body with
  | Except.error _ => none
  | Except.ok (Json.obj fields) =>
    some (Json.obj (assocSet fields "webhook_id" (Json.str webhook_id)))
  | Except.ok e => some e

namespace HubitatHub

/-- Modelled from the spec: `HubitatHub.add_device_listener` is called
by `HubitatDevice.__init__` but its implementation is absent from the
sources (only the `listeners` field exists). Per §4.4, registration
appends the callback to the device's ordered listener list, creating
the entry on first registration. -/
def add_device_listener (h : HubitatHub) (device_id : String) (cb : CB) : HubitatHub :=
  { h with listeners := listenersAdd h.listeners device_id cb }

/-- Modelled from the spec: the invocation loop of `notify`, absent
from the sources. Each callback is invoked in order; a callback that
raises has its exception caught and logged, so iteration always
continues to the next callback. The result is the trace of invoked
callback identities in call order. -/
def runCallbacks : List CB → List Nat
  | [] => []
  | cb :: rest => cb.ident :: runCallbacks rest

/-- Modelled from the spec: `notify(device_id)` invokes every callback
registered for that device id, in registration order; no registry entry
means no invocations (a no-op). Returns the invocation trace. -/
def notify (h : HubitatHub) (device_id : String) : List Nat :=
  runCallbacks ((assocLookup h.listeners device_id).getD [])

/-- Modelled from the spec: `HubitatHub.refresh_device(device_id)` is
called by `HubitatDevice.async_update` but absent from the sources.
Per §4.5 it forces `loadOne(device_id, True)` — the source's
`_load_device` — and then `notify(device_id)`. Returns the new state
and the notification trace. -/
def refresh_device (env : FetchEnv) (h : HubitatHub) (device_id : String) :
    Except HubErr (HubitatHub × List Nat) :=
  match load_device env h device_id true with
  | Except.error e => Except.error e
  | Except.ok (h2, _) => Except.ok (h2, notify h2 device_id)

end HubitatHub

/-- Python membership `tag in caps` on a capability list: an equality
test against each element in order; a string never equals an
object-form (mapping) entry, so only bare string tags can match. -/
def capMem : List Capability → String → Bool
  | [], _ => false
  | Capability.tag s :: rest, t => if s = t then true else capMem rest t
  | Capability.obj _ :: rest, t => capMem rest t

/-- The detection rule as the spec words it: a tag is present if it
appears as a bare string, *or as the key of an object-form capability
entry*. In the data model (§3) the object form's single key is the
literal `attributes`, so the second disjunct holds exactly when the tag
is `attributes` and some object-form entry exists. -/
def capMemSpec : List Capability → String → Bool
  | [], _ => false
  | Capability.tag s :: rest, t => if s = t then true else capMemSpec rest t
  | Capability.obj _ :: rest, t => if t = "attributes" then true else capMemSpec rest t

/-- `LIGHT_CAPABILITIES` from `light.py`. -/
def LIGHT_CAPABILITIES : List String := ["SwitchLevel", "ColorControl"]

/-- `_is_light(device)`: true when any of `LIGHT_CAPABILITIES` is a
member of the device's capability list. -/
def is_light (d : DeviceInfo) : Bool :=
  LIGHT_CAPABILITIES.any (fun cap => capMem d.capabilities cap)

/-- `SUPPORT_BRIGHTNESS` from the host platform's light component
(external collaborator): bit 0. -/
def SUPPORT_BRIGHTNESS : Nat := 1

/-- `SUPPORT_COLOR_TEMP` from the host platform's light component
(external collaborator): bit 1. -/
def SUPPORT_COLOR_TEMP : Nat := 2

/-- `SUPPORT_COLOR` from the host platform's light component (external
collaborator): bit 4. -/
def SUPPORT_COLOR : Nat := 16

/-- Modelled from the spec: `CAPABILITY_COLOR_CONTROL` is imported by
`light.py` from the hub module but is not defined in the sources; the
spec's capability table (§4.6) names the tag `ColorControl`. -/
def CAPABILITY_COLOR_CONTROL : String := "ColorControl"

/-- Modelled from the spec: `CAPABILITY_COLOR_TEMP` is imported by
`light.py` but not defined in the sources; the spec's capability table
(§4.6) names the tag `ColorTemperature`. -/
def CAPABILITY_COLOR_TEMP : String := "ColorTemperature"

/-- Modelled from the spec: `CAPABILITY_SWITCH_LEVEL` is imported by
`light.py` but not defined in the sources; the spec's capability table
(§4.6) names the tag `SwitchLevel`. -/
def CAPABILITY_SWITCH_LEVEL : String := "SwitchLevel"

/-- `HubitatLight.supported_features`: start from 0 and OR in
`SUPPORT_COLOR`, `SUPPORT_COLOR_TEMP`, `SUPPORT_BRIGHTNESS` when the
corresponding capability tag is a member of the capability list;
capabilities outside the table contribute nothing. -/
def supported_features (caps : List Capability) : Nat :=
  let f0 : Nat := 0
  let f1 := if capMem caps CAPABILITY_COLOR_CONTROL then f0 ||| SUPPORT_COLOR else f0
  let f2 := if capMem caps CAPABILITY_COLOR_TEMP then f1 ||| SUPPORT_COLOR_TEMP else f1
  if capMem caps CAPABILITY_SWITCH_LEVEL then f2 ||| SUPPORT_BRIGHTNESS else f2

/-- `HubitatLight.brightness`: `int(255 * int(level) / 100)`. For a hub
level in `0..100` the fraction `255*level/100` has denominator at most
20 in lowest terms, so the float quotient truncates to the same value
as `Nat` floor division. -/
def brightness_attr (level : Nat) : Nat := 255 * level / 100

/-- The level `HubitatLight.async_turn_on` sends for a requested
brightness: `int(100 * brightness / 255)`. For a brightness in `0..255`
the fraction `100*brightness/255` has denominator at most 51 in lowest
terms, so the float quotient truncates to the same value as `Nat` floor
division. -/
def turn_on_level (brightness : Nat) : Nat := 100 * brightness / 255

/-- Rounding to the nearest integer (halves up), the `round` of the
claim's formulas, on a nonnegative fraction `num / den`. -/
def roundDiv (num den : Nat) : Nat := (2 * num + den) / (2 * den)

/-- Concrete sample: a well-formed device summary payload — a list
whose single entry has string `id`, `name` and `label`. -/
def sampleSummaryPayload : Json :=
  Json.arr
    [Json.obj
      [("id", Json.str "1"), ("name", Json.str "Dimmer"), ("label", Json.str "Light")]]

/-- Concrete sample: a full device-info payload that satisfies
`DEVICE_INFO_SCHEMA`. -/
def sampleDeviceJson : Json :=
  Json.obj
    [("id", Json.str "42"), ("name", Json.str "Dimmer"), ("label", Json.str "Light"),
     ("attributes",
      Json.arr
        [Json.obj
          [("name", Json.str "level"), ("dataType", Json.str "NUMBER"),
           ("currentValue", Json.int 10)]]),
     ("capabilities", Json.arr [Json.str "SwitchLevel"]),
     ("commands", Json.arr [Json.str "on", Json.str "setLevel"])]

/-- The validated record of `sampleDeviceJson`. -/
def sampleDevice : DeviceInfo :=
  { id := "42", name := "Dimmer", label := "Light"
    attributes :=
      [{ name := "level", dataType := some "NUMBER"
         currentValue := some (Json.int 10), values := none }]
    capabilities := [Capability.tag "SwitchLevel"]
    commands := ["on", "setLevel"] }

/-- Concrete sample: an environment in which every fetch succeeds — the
hub details parse to an empty mapping, the device list returns
`sampleSummaryPayload`, and every device returns `sampleDeviceJson`. -/
def sampleEnv : FetchEnv :=
  { hubDetails := Except.ok []
    deviceList := Except.ok sampleSummaryPayload
    deviceInfo := fun _ => Except.ok sampleDeviceJson }

/-- Concrete sample: the hub instance `__init__` produces for host
`10.0.0.1`, app id `81`, token `abc` — note `devices` and `info` are
unset. -/
def sampleHub : HubitatHub :=
  { host := "10.0.0.1", app_id := "81", token := "abc"
    api := "http://10.0.0.1/apps/api/81"
    devices := none, info := none, listeners := [] }

/-- Concrete sample: a hub whose device cache has been (hypothetically)
initialised to the empty dictionary. -/
def sampleHubEmptyCache : HubitatHub :=
  { sampleHub with devices := some [] }

/-- Concrete sample: a hub whose device cache holds `sampleDevice`
under its id. -/
def sampleHubCached : HubitatHub :=
  { sampleHub with devices := some [("42", sampleDevice)] }

theorem runCallbacks_eq_map (l : List CB) :
    HubitatHub.runCallbacks l = l.map CB.ident := by
  induction l with
  | nil => rfl
  | cons cb rest ih => simp [HubitatHub.runCallbacks, ih]

theorem assocLookup_listenersAdd (ls : List (String × List CB)) (d : String) (cb : CB) :
    assocLookup (listenersAdd ls d cb) d = some ((assocLookup ls d).getD [] ++ [cb]) := by
  induction ls with
  | nil => simp [listenersAdd, assocLookup]
  | cons p rest ih =>
    obtain ⟨k, cbs⟩ := p
    by_cases hk : k = d
    · subst hk; simp [listenersAdd, assocLookup]
    · simp [listenersAdd, assocLookup, hk, ih]

theorem findAttr_name_mem (l : List AttrRec) (a : String) (r : AttrRec)
    (h : HubitatHub.findAttr l a = some r) : r.name = a ∧ r ∈ l := by
  induction l with
  | nil => exact absurd h (by simp [HubitatHub.findAttr])
  | cons x rest ih =>
    by_cases hx : x.name = a
    · rw [HubitatHub.findAttr, if_pos hx] at h
      obtain rfl : x = r := by injection h
      exact ⟨hx, List.mem_cons_self x rest⟩
    · rw [HubitatHub.findAttr, if_neg hx] at h
      obtain ⟨h1, h2⟩ := ih h
      exact ⟨h1, List.mem_cons_of_mem x h2⟩

/-- C1: the claim says `connect` either fully populates hub info and
the device cache before returning success, or fails exposing no usable
partial cache. In the code `self.devices` is declared with a bare
annotation and never assigned, so `_load_devices` — and the debug log
at the end of `_load_info` — raise `AttributeError` on every instance
`__init__` can produce: `connect` can never return success, never
populates the device cache, and contradicts its own docstring
("download initial state data"). The claim's success branch is
unreachable: a code bug. This theorem evaluates the code at the failing
input: any constructed hub, any fetch environment. -/
theorem connect_always_fails_on_fresh_hub (env : FetchEnv)
    (host app_id token : String) (hub : HubitatHub)
    (hinit : HubitatHub.init host app_id token = Except.ok hub) :
    ∃ e, HubitatHub.connect env hub = Except.error e := by
  have hdev : hub.devices = none := by
    unfold HubitatHub.init at hinit
    split_ifs at hinit
    obtain rfl : _ = hub := by injection hinit
    rfl
  rcases henv : env.hubDetails with e | d
  · exact ⟨HubErr.transport e, by simp [HubitatHub.connect, HubitatHub.load_info, henv]⟩
  · exact ⟨HubErr.attributeError,
      by simp [HubitatHub.connect, HubitatHub.load_info, henv, hdev]⟩

/-- C1 witness: the failure at the concrete constructed hub and the
all-successful fetch environment. -/
theorem connect_always_fails_on_fresh_hub_witness :
    ∃ e, HubitatHub.connect sampleEnv sampleHub = Except.error e :=
  connect_always_fails_on_fresh_hub sampleEnv "10.0.0.1" "81" "abc" sampleHub rfl

/-- C2: the claim says that on a summary payload whose entries each
carry string `id`, `name`, `label`, `loadAll` validates the payload and
then fetches each device once, sequentially. In the code
`DEVICE_SCHEMA` is a *mapping* schema, so applied to the summary *list*
it always fails with `expected a dictionary` and no per-device fetch
ever happens (first conjunct, with `force_refresh` set); moreover on
the cache-empty path the `len(self.devices)` test raises
`AttributeError` because `self.devices` is never initialised (second
conjunct). A code bug either way. -/
theorem load_devices_bootstrap_broken :
    (∀ h : HubitatHub,
      HubitatHub.load_devices sampleEnv h true =
        Except.error (HubErr.schemaInvalid (VolErr.invalid "expected a dictionary"))) ∧
    HubitatHub.load_devices sampleEnv sampleHub false =
      Except.error HubErr.attributeError :=
  ⟨fun _ => rfl, rfl⟩

/-- C3 counterexample: on a hub whose cache is the empty dictionary,
`get_device_attribute` for an uncached device id raises `KeyError`
(the bare `self.devices[device_id]` lookup), not the module's
`InvalidAttribute` — so the claim that both failure cases surface
`AttributeNotFound` is false. -/
theorem get_device_attribute_keyerror_not_invalidattribute :
    HubitatHub.get_device_attribute sampleHubEmptyCache "42" "level" =
      Except.error HubErr.keyError ∧
    HubErr.keyError ≠ HubErr.invalidAttribute :=
  ⟨rfl, by decide⟩

/-- C3 amended: `get_device_attribute` raises `AttributeError` when the
cache was never initialised, `KeyError` when the device id is not a key
of the cache, `InvalidAttribute` when the cached device's attribute
list has no record of the requested name, and otherwise returns the
first record of that name found by the linear scan (a record of the
requested name occurring in the list). -/
theorem get_device_attribute_cases (h : HubitatHub) (d a : String) :
    (h.devices = none →
      HubitatHub.get_device_attribute h d a = Except.error HubErr.attributeError) ∧
    (∀ m, h.devices = some m →
      (assocLookup m d = none →
        HubitatHub.get_device_attribute h d a = Except.error HubErr.keyError) ∧
      (∀ info, assocLookup m d = some info →
        ((HubitatHub.findAttr info.attributes a = none →
          HubitatHub.get_device_attribute h d a = Except.error HubErr.invalidAttribute) ∧
         (∀ r, HubitatHub.findAttr info.attributes a = some r →
           HubitatHub.get_device_attribute h d a = Except.ok r ∧ r.name = a ∧
             r ∈ info.attributes)))) := by
  refine ⟨fun hd => ?_, fun m hm => ⟨fun hlk => ?_, fun info hinfo => ⟨fun hf => ?_, ?_⟩⟩⟩
  · simp [HubitatHub.get_device_attribute, hd]
  · simp [HubitatHub.get_device_attribute, hm, hlk]
  · simp [HubitatHub.get_device_attribute, hm, hinfo, hf]
  · intro r hr
    refine ⟨by simp [HubitatHub.get_device_attribute, hm, hinfo, hr], ?_, ?_⟩
    · exact (findAttr_name_mem info.attributes a r hr).1
    · exact (findAttr_name_mem info.attributes a r hr).2

/-- C4: `refresh_device` forces a reload of the one device's record
(`_load_device` with `force_refresh` set: fetch, validate, replace the
record under its id) and then notifies every listener registered for
that id — here two listeners registered in order `a`, `b` on top of any
existing ones — each invoked exactly once, in registration order,
whatever their `raises` flags (a raising listener is caught and logged,
not propagated). The listener machinery is modelled from the spec, as
its implementation is absent from the sources. -/
theorem refresh_device_reloads_then_notifies_all
    (env : FetchEnv) (h : HubitatHub) (m : List (String × DeviceInfo)) (d : String)
    (a b : CB) (j : Json) (info : DeviceInfo)
    (hdev : h.devices = some m)
    (hfetch : env.deviceInfo d = Except.ok j)
    (hval : validateDeviceInfo j = Except.ok info) :
    ∃ h2,
      HubitatHub.refresh_device env
          (HubitatHub.add_device_listener (HubitatHub.add_device_listener h d a) d b) d =
        Except.ok (h2, ((assocLookup h.listeners d).getD [] ++ [a, b]).map CB.ident) ∧
      h2.devices = some (assocSet m d info) := by
  refine ⟨{ h with
      listeners := listenersAdd (listenersAdd h.listeners d a) d b
      devices := some (assocSet m d info) }, ?_, rfl⟩
  simp only [HubitatHub.refresh_device, HubitatHub.load_device, if_true,
    HubitatHub.load_device_fetch, HubitatHub.add_device_listener, hfetch, hval, hdev,
    HubitatHub.notify, assocLookup_listenersAdd, Option.getD_some, runCallbacks_eq_map,
    List.append_assoc, List.cons_append, List.nil_append]

/-- C4 witness: two listeners (the first raising) registered on device
`42` of a hub with an empty cache; refreshing fetches and stores the
sample device and invokes both listeners once each, in order. -/
theorem refresh_device_reloads_then_notifies_all_witness :
    ∃ h2,
      HubitatHub.refresh_device sampleEnv
          (HubitatHub.add_device_listener
            (HubitatHub.add_device_listener sampleHubEmptyCache "42"
              { ident := 1, raises := true })
            "42" { ident := 2, raises := false }) "42" =
        Except.ok (h2, [1, 2]) ∧
      h2.devices = some [("42", sampleDevice)] :=
  refresh_device_reloads_then_notifies_all sampleEnv sampleHubEmptyCache [] "42"
    { ident := 1, raises := true } { ident := 2, raises := false }
    sampleDeviceJson sampleDevice rfl rfl rfl

set_option maxRecDepth 8192 in
/-- C5: the claim says `send_command` issues a GET on
`devices/id/command[/arg]` under the base `http://host/apps/api/appId`
with the access token as query parameter. The code prepends a second
`http://` to `self.api` (which already carries the scheme) and passes
no `params=` at all, so the concrete call goes to a malformed URL with
no access token — a code bug (every other authenticated call in the
module uses `self.api` directly and passes the token). The no-argument
path does omit the trailing segment as claimed. -/
theorem send_command_request_malformed :
    HubitatHub.send_command_request sampleHub "42" "setLevel" (some (HubitatHub.Arg.i 50)) =
      { method := "GET"
        url := "http://http://10.0.0.1/apps/api/81/devices/42/setLevel/50"
        params := [] } ∧
    HubitatHub.send_command_url sampleHub "42" "setLevel" (some (HubitatHub.Arg.i 50)) ≠
      "http://10.0.0.1/apps/api/81/devices/42/setLevel/50" ∧
    (HubitatHub.send_command_request sampleHub "42" "on" none).url =
      "http://http://10.0.0.1/apps/api/81/devices/42/on" :=
  ⟨rfl, fun heq => absurd (congrArg String.length heq) (by decide), rfl⟩

/-- C6: `update_state` — the handler for incoming hub events — is a
no-op (`pass`): for *every* payload, in particular one lacking a device
id or naming an uncached device, it returns without raising and leaves
the whole state, hence the device cache, unchanged. The webhook-level
`handle_event` likewise drops an undecodable body without raising. -/
theorem update_state_ignores_all_events :
    (∀ (h : HubitatHub) (e : Json), HubitatHub.update_state h e = h) ∧
    (∀ wid : String, handle_event wid (Except.error ()) = none) :=
  ⟨fun _ _ => rfl, fun _ => rfl⟩

/-- C7: constructing the hub with all three of host, app id and access
token non-empty succeeds and derives the API base
`http://host/apps/api/appId`; with any of them empty it fails with
`InvalidConfig`. -/
theorem init_validates_config (host app_id token : String) :
    (host ≠ "" → app_id ≠ "" → token ≠ "" →
      ∃ hub, HubitatHub.init host app_id token = Except.ok hub ∧
        hub.api = "http://" ++ host ++ "/apps/api/" ++ app_id ∧
        hub.host = host ∧ hub.app_id = app_id ∧ hub.token = token) ∧
    ((host = "" ∨ app_id = "" ∨ token = "") →
      ∃ msg, HubitatHub.init host app_id token = Except.error (HubErr.invalidConfig msg)) := by
  constructor
  · intro h1 h2 h3
    unfold HubitatHub.init
    rw [if_neg h1, if_neg h2, if_neg h3]
    exact ⟨_, rfl, rfl, rfl, rfl, rfl⟩
  · intro hor
    unfold HubitatHub.init
    by_cases hh : host = ""
    · rw [if_pos hh]; exact ⟨_, rfl⟩
    · rw [if_neg hh]
      by_cases ha : app_id = ""
      · rw [if_pos ha]; exact ⟨_, rfl⟩
      · rw [if_neg ha]
        rcases hor with h | h | h
        · exact absurd h hh
        · exact absurd h ha
        · rw [if_pos h]; exact ⟨_, rfl⟩

/-- C7 witness: construction at a concrete valid triple. -/
theorem init_validates_config_witness :
    ∃ hub, HubitatHub.init "10.0.0.1" "81" "abc" = Except.ok hub ∧
      hub.api = "http://10.0.0.1/apps/api/81" ∧
      hub.host = "10.0.0.1" ∧ hub.app_id = "81" ∧ hub.token = "abc" :=
  (init_validates_config "10.0.0.1" "81" "abc").1 (by decide) (by decide) (by decide)

/-- C8 counterexample: at generic brightness 130 the code sends hub
level `int(100 * 130 / 255) = 50`, while the claim's formula
`round(100 * 130 / 255)` gives 51 — the translation truncates, it does
not round. -/
theorem turn_on_level_truncates_not_rounds :
    turn_on_level 130 = 50 ∧ roundDiv (100 * 130) 255 = 51 ∧ (50 : Nat) ≠ 51 :=
  ⟨rfl, rfl, by decide⟩

set_option maxRecDepth 8192 in
/-- C8 amended: the translation truncates —
`hubLevel = int(100 * brightness / 255)` (floor) for brightness in
0..255, staying within 0..100, and
`brightness = int(255 * level / 100)` (floor) for level in 0..100,
staying within 0..255; the round trip from brightness 255 yields hub
level 100 and back exactly 255 (within the claimed tolerance of 1),
and the round trip from brightness 0 yields exactly 0. -/
theorem brightness_level_truncation_roundtrip :
    (∀ b : Fin 256, turn_on_level b.val = 100 * b.val / 255 ∧ turn_on_level b.val ≤ 100) ∧
    (∀ l : Fin 101, brightness_attr l.val = 255 * l.val / 100 ∧ brightness_attr l.val ≤ 255) ∧
    turn_on_level 255 = 100 ∧ brightness_attr (turn_on_level 255) = 255 ∧
    turn_on_level 0 = 0 ∧ brightness_attr (turn_on_level 0) = 0 := by
  refine ⟨?_, ?_, rfl, rfl, rfl, rfl⟩ <;> decide

/-- C9 counterexample: an object-form capability entry (whose single
key is `attributes`) is never matched by the code's membership test —
`tag in capabilities` compares the string against each element and a
string never equals a mapping — while the claim's rule (present when
the tag is the key of an object-form entry) reports it present; a
device whose capability list is one object entry is accordingly not a
light. -/
theorem capability_object_entry_never_matches :
    capMem [Capability.obj []] "attributes" = false ∧
    capMemSpec [Capability.obj []] "attributes" = true ∧
    is_light { id := "1", name := "n", label := "l", attributes := []
               capabilities := [Capability.obj []], commands := [] } = false :=
  ⟨rfl, rfl, rfl⟩

/-- C9 amended: capability detection reports a tag present exactly when
it occurs as a bare string element (object-form entries never match),
and the supported-features computation sets the brightness bit for
`SwitchLevel`, the color bit for `ColorControl` and the
color-temperature bit for `ColorTemperature`, ignoring every capability
outside this table. -/
theorem capability_detection_and_features :
    (∀ (t : String) (attrs : List AttrRec) (caps : List Capability),
      capMem (Capability.obj attrs :: caps) t = capMem caps t) ∧
    (∀ (t : String) (caps : List Capability), capMem (Capability.tag t :: caps) t = true) ∧
    (∀ caps : List Capability,
      (supported_features caps &&& SUPPORT_BRIGHTNESS ≠ 0 ↔
        capMem caps CAPABILITY_SWITCH_LEVEL = true) ∧
      (supported_features caps &&& SUPPORT_COLOR ≠ 0 ↔
        capMem caps CAPABILITY_COLOR_CONTROL = true) ∧
      (supported_features caps &&& SUPPORT_COLOR_TEMP ≠ 0 ↔
        capMem caps CAPABILITY_COLOR_TEMP = true)) ∧
    (∀ (s : String) (caps : List Capability),
      s ≠ CAPABILITY_COLOR_CONTROL → s ≠ CAPABILITY_COLOR_TEMP →
      s ≠ CAPABILITY_SWITCH_LEVEL →
      supported_features (Capability.tag s :: caps) = supported_features caps) := by
  refine ⟨fun t attrs caps => rfl, fun t caps => by simp [capMem], fun caps => ?_, ?_⟩
  · cases h1 : capMem caps CAPABILITY_COLOR_CONTROL <;>
      cases h2 : capMem caps CAPABILITY_COLOR_TEMP <;>
      cases h3 : capMem caps CAPABILITY_SWITCH_LEVEL <;>
      simp [supported_features, h1, h2, h3, SUPPORT_BRIGHTNESS, SUPPORT_COLOR,
        SUPPORT_COLOR_TEMP] <;> decide
  · intro s caps hs1 hs2 hs3
    simp only [supported_features, capMem, CAPABILITY_COLOR_CONTROL,
      CAPABILITY_COLOR_TEMP, CAPABILITY_SWITCH_LEVEL] at hs1 hs2 hs3 ⊢
    rw [if_neg hs1, if_neg hs2, if_neg hs3]

/-- C10: a falsy command argument — the integer 0 or the empty string,
the latter being exactly what the device layer's
`",".join` produces for a command with no arguments — makes
`send_command` issue the very same request as passing no argument: the
`if arg:` test skips the trailing segment. -/
theorem send_command_falsy_arg_omitted (h : HubitatHub) (device_id command : String) :
    HubitatHub.send_command_request h device_id command (some (HubitatHub.Arg.i 0)) =
      HubitatHub.send_command_request h device_id command none ∧
    HubitatHub.send_command_request h device_id command (some (HubitatHub.Arg.s "")) =
      HubitatHub.send_command_request h device_id command none ∧
    HubitatHub.send_command_request h device_id command
        (some (HubitatHub.Arg.s (join_comma []))) =
      HubitatHub.send_command_request h device_id command none ∧
    HubitatHub.send_command_url h device_id command (some (HubitatHub.Arg.i 0)) =
      "http://" ++ h.api ++ "/devices/" ++ device_id ++ "/" ++ command :=
  ⟨rfl, rfl, rfl, rfl⟩
